import Mathlib

/-!
# Verification of the DUI frontend against its specification

Shallow embedding of the DUI repository's frontend sources:

* `frontend/src/dslText.ts` — the DUI-Lang pretty-printer
  (`serializeDuiDslDocument` and its helpers);
* `frontend/src/types.ts` — the data model (`DuiDslDocument`, `UiManifest`, …);
* `frontend/src/App.tsx` — the commit-button enabling logic and the
  `DashboardView` zone renderer;
* spec-modelled components (the backend patch/revision engine and validator,
  which are not part of the frontend sources) are marked as such in their
  doc comments.

Modelling conventions: JavaScript objects are association lists in insertion
order (`Object.entries` order); JavaScript numbers are modelled as `Int`
(every numeric value appearing in the claims is integral); `String(n)` is
`Int` printing; string `.length` is UTF-16 code-unit length.
-/

/-- A JavaScript JSON-like value as manipulated by `dslText.ts`
(`unknown` values of documents: null, string, number, boolean, array, object). -/
inductive JsValue where
  | null
  | str (s : String)
  | num (n : Int)
  | bool (b : Bool)
  | arr (values : List JsValue)
  | obj (entries : List (String × JsValue))

/-- JavaScript string `.length`: number of UTF-16 code units. -/
def utf16Length (s : String) : Nat :=
  s.data.foldl (fun n c => n + (if c.toNat < 65536 then 1 else 2)) 0

/-- Lower-case hex digit, used by the `\u00XX` escapes of `JSON.stringify`. -/
def hexDigit (n : Nat) : Char :=
  if n < 10 then Char.ofNat (48 + n) else Char.ofNat (87 + n)

/-- Escaping of a single character inside a JSON string literal, as performed
by `JSON.stringify` on strings (ECMA-262 QuoteJSONString). -/
def jsonEscapeChar (c : Char) : List Char :=
  if c = '"' then ['\\', '"']
  else if c = '\\' then ['\\', '\\']
  else if c.toNat = 8 then ['\\', 'b']
  else if c.toNat = 12 then ['\\', 'f']
  else if c = '\n' then ['\\', 'n']
  else if c.toNat = 13 then ['\\', 'r']
  else if c.toNat = 9 then ['\\', 't']
  else if c.toNat < 32 then ['\\', 'u', '0', '0', hexDigit (c.toNat / 16), hexDigit (c.toNat % 16)]
  else [c]

/-- Escape every character of a string for a JSON string literal body. -/
def jsonEscapeList : List Char → List Char
  | [] => []
  | c :: cs => jsonEscapeChar c ++ jsonEscapeList cs

/-- `JSON.stringify` applied to a string: a quoted, escaped JSON literal. -/
def jsonQuote (s : String) : String :=
  ⟨'"' :: (jsonEscapeList s.data ++ ['"'])⟩

/-- First character of the identifier pattern `^[A-Za-z_][A-Za-z0-9_.-]*$`. -/
def isIdentStartChar (c : Char) : Bool :=
  ('A' ≤ c && c ≤ 'Z') || ('a' ≤ c && c ≤ 'z') || c = '_'

/-- Continuation character of the identifier pattern `^[A-Za-z_][A-Za-z0-9_.-]*$`. -/
def isIdentRestChar (c : Char) : Bool :=
  isIdentStartChar c || ('0' ≤ c && c ≤ '9') || c = '.' || c = '-'

/-- `IDENTIFIER_RE.test(value)` for `IDENTIFIER_RE = /^[A-Za-z_][A-Za-z0-9_.-]*$/`. -/
def identifierRegexMatch (s : String) : Bool :=
  match s.data with
  | [] => false
  | c :: cs => isIdentStartChar c && cs.all isIdentRestChar

/-- `RESERVED_WORDS = new Set(['true', 'false', 'null'])` from `dslText.ts`. -/
def RESERVED_WORDS : List String := ["true", "false", "null"]

/-- `isIdentifier` from `dslText.ts`: matches the identifier regex and is not a
reserved word. -/
def isIdentifier (s : String) : Bool :=
  identifierRegexMatch s && !(RESERVED_WORDS.contains s)

/-- `formatIdentifier` from `dslText.ts`. -/
def formatIdentifier (s : String) : String :=
  if isIdentifier s then s else jsonQuote s

/-- `formatKey` from `dslText.ts` (identical to `formatIdentifier`). -/
def formatKey (s : String) : String :=
  if isIdentifier s then s else jsonQuote s

/-- `INDENT.repeat(indentLevel)` for `INDENT = '  '`. -/
def indentStr (lvl : Nat) : String :=
  ⟨List.replicate (2 * lvl) ' '⟩

/-- `typeof value !== 'object' || value === null`: true exactly for the
non-array, non-object values (JavaScript `typeof null` is `'object'` but the
second disjunct readmits `null`). -/
def isNonObject : JsValue → Bool
  | .arr _ => false
  | .obj _ => false
  | _ => true

mutual

/-- `formatValue` from `dslText.ts`, fused with `formatArray`/`formatObject`
(which it mutually recurses with in the source).  The array (resp. object)
branches are the bodies of `formatArray` (resp. `formatObject`). -/
def formatValue : JsValue → Nat → String
  | .null, _ => "null"
  | .str s, _ => if isIdentifier s then s else jsonQuote s
  | .num n, _ => toString n
  | .bool b, _ => if b then "true" else "false"
  | .arr [], _ => "[]"
  | .arr (v0 :: rest), lvl =>
    let inlineValues := formattedValues (v0 :: rest) lvl
    let inline := "[" ++ String.intercalate ", " inlineValues ++ "]"
    if utf16Length inline ≤ 88 && (v0 :: rest).all isNonObject then inline
    else
      let indent := indentStr lvl
      let innerIndent := indentStr (lvl + 1)
      let rows := (formattedValues (v0 :: rest) (lvl + 1)).map (fun r => innerIndent ++ r)
      "[\n" ++ String.intercalate ",\n" rows ++ "\n" ++ indent ++ "]"
  | .obj [], _ => "\x7b\x7d"
  | .obj (e0 :: rest), lvl =>
    let inlineParts := formattedEntries (e0 :: rest) lvl
    let inline := "\x7b " ++ String.intercalate ", " inlineParts ++ " \x7d"
    if utf16Length inline ≤ 100 && (e0 :: rest).all (fun e => isNonObject e.2) then inline
    else
      let indent := indentStr lvl
      let innerIndent := indentStr (lvl + 1)
      let rows := (formattedEntries (e0 :: rest) (lvl + 1)).map (fun r => innerIndent ++ r)
      "\x7b\n" ++ String.intercalate ",\n" rows ++ "\n" ++ indent ++ "\x7d"

/-- `values.map((value) => formatValue(value, indentLevel))` from `formatArray`. -/
def formattedValues : List JsValue → Nat → List String
  | [], _ => []
  | v :: vs, lvl => formatValue v lvl :: formattedValues vs lvl

/-- `entries.map(([key, value]) => formatKey(key) + ': ' + formatValue(value, …))`
from `formatObject`. -/
def formattedEntries : List (String × JsValue) → Nat → List String
  | [], _ => []
  | (k, v) :: es, lvl => (formatKey k ++ ": " ++ formatValue v lvl) :: formattedEntries es lvl

end

/-- `formatArray` from `dslText.ts` (the serializer also calls it directly for
`children`). -/
def formatArray (values : List JsValue) (lvl : Nat) : String :=
  formatValue (.arr values) lvl

/-- `formatObject` from `dslText.ts` (the serializer also calls it directly for
`tokens`, `slots`, `on` and the optional object blocks). -/
def formatObject (entries : List (String × JsValue)) (lvl : Nat) : String :=
  formatValue (.obj entries) lvl

/-! ## The DUI DSL document model (`frontend/src/types.ts`) -/

/-- `DuiDslSurface` from `types.ts`. -/
structure DuiDslSurface where
  id : String
  title : String
  route : String

/-- `DuiDslMeta` from `types.ts` (`revision: number` is integral). -/
structure DuiDslMeta where
  document_id : String
  revision : Int
  created_at : String
  created_by : String

/-- `DuiDslTheme` from `types.ts`; `profile`/`density` are string unions. -/
structure DuiDslTheme where
  profile : String
  density : String
  tokens : List (String × String)

/-- `DuiDslState` from `types.ts`. -/
structure DuiDslState where
  locals : List (String × JsValue)

/-- `DuiDslNode` from `types.ts`. -/
structure DuiDslNode where
  id : String
  type : String
  props : List (String × JsValue)
  style : List (String × JsValue)
  layout : List (String × JsValue)
  a11y : List (String × JsValue)
  visible_when : Option (List (String × JsValue))
  enabled_when : Option (List (String × JsValue))
  children : List String
  slots : List (String × List String)
  «on» : List (String × String)

/-- `DuiDslBinding` from `types.ts`. -/
structure DuiDslBinding where
  id : String
  source : String
  select : String
  args : List (String × JsValue)
  cache : List (String × JsValue)

/-- `DuiDslAction` from `types.ts`. -/
structure DuiDslAction where
  id : String
  type : String
  params : List (String × JsValue)

/-- `DuiDslDocument` from `types.ts`. -/
structure DuiDslDocument where
  dsl_version : String
  surface : DuiDslSurface
  meta : DuiDslMeta
  theme : DuiDslTheme
  state : DuiDslState
  nodes : List DuiDslNode
  bindings : List DuiDslBinding
  actions : List DuiDslAction
  layout_constraints : List (String × JsValue)

/-! ## The pretty-printer (`serializeDuiDslDocument` from `dslText.ts`)

The source builds a `lines` array imperatively (`lines.push(…)`) and joins it
with `'\n'`; appending to that array is modelled by list concatenation, so
`serializeLines` below pushes exactly the lines the source pushes, in the
same order. -/

/-- A `Record<string,string>` viewed as the object `formatObject` receives. -/
def strEntries (l : List (String × String)) : List (String × JsValue) :=
  l.map (fun e => (e.1, .str e.2))

/-- A `Record<string,string[]>` (node `slots`) viewed as a `formatObject` input. -/
def slotEntries (l : List (String × List String)) : List (String × JsValue) :=
  l.map (fun e => (e.1, .arr (e.2.map .str)))

/-- `pushOptionalObjectBlock` from `dslText.ts`: pushes nothing for an empty
object, otherwise one `label { … }` line at the given indent. -/
def optionalObjectBlock (label : String) (value : List (String × JsValue)) (lvl : Nat) :
    List String :=
  if value.isEmpty then []
  else [indentStr lvl ++ label ++ " " ++ formatObject value lvl]

/-- The lines pushed before the action/node/binding loops of
`serializeDuiDslDocument`: the `surface` opener, `surface_meta`, `meta`, the
`theme` line (with or without `tokens`), and the optional `layout_constraints`
and `state` blocks. -/
def headerLines (doc : DuiDslDocument) : List String :=
  ["surface " ++ formatIdentifier doc.surface.id ++ " \x7b",
   "  surface_meta \x7b title: " ++ formatValue (.str doc.surface.title) 1 ++
     ", route: " ++ formatValue (.str doc.surface.route) 1 ++ " \x7d",
   "  meta \x7b document_id: " ++ formatValue (.str doc.meta.document_id) 1 ++
     ", revision: " ++ toString doc.meta.revision ++
     ", created_by: " ++ formatValue (.str doc.meta.created_by) 1 ++ " \x7d"] ++
  [if doc.theme.tokens.isEmpty then
     "  theme \x7b profile: " ++ formatValue (.str doc.theme.profile) 1 ++
       " density: " ++ formatValue (.str doc.theme.density) 1 ++ " \x7d"
   else
     "  theme \x7b profile: " ++ formatValue (.str doc.theme.profile) 1 ++
       " density: " ++ formatValue (.str doc.theme.density) 1 ++
       " tokens " ++ formatObject (strEntries doc.theme.tokens) 1 ++ " \x7d"] ++
  optionalObjectBlock "layout_constraints" doc.layout_constraints 1 ++
  optionalObjectBlock "state" doc.state.locals 1

/-- The lines pushed for one `action` block. -/
def actionLines (a : DuiDslAction) : List String :=
  ["",
   "  action " ++ formatIdentifier a.id ++ " \x7b",
   "    type: " ++ formatValue (.str a.type) 2] ++
  optionalObjectBlock "params" a.params 2 ++
  ["  \x7d"]

/-- The lines pushed for one `node` block. -/
def nodeLines (n : DuiDslNode) : List String :=
  ["",
   "  node " ++ formatIdentifier n.id ++ ": " ++ formatIdentifier n.type ++ " \x7b"] ++
  optionalObjectBlock "props" n.props 2 ++
  optionalObjectBlock "style" n.style 2 ++
  optionalObjectBlock "layout" n.layout 2 ++
  optionalObjectBlock "a11y" n.a11y 2 ++
  (match n.visible_when with
   | none => []
   | some vw => optionalObjectBlock "visible_when" vw 2) ++
  (match n.enabled_when with
   | none => []
   | some ew => optionalObjectBlock "enabled_when" ew 2) ++
  (if n.children.isEmpty then []
   else ["    children: " ++ formatArray (n.children.map .str) 2]) ++
  (if n.slots.isEmpty then []
   else ["    slots " ++ formatObject (slotEntries n.slots) 2]) ++
  (if n.«on».isEmpty then []
   else ["    on " ++ formatObject (strEntries n.«on») 2]) ++
  ["  \x7d"]

/-- The lines pushed for one `binding` block. -/
def bindingLines (b : DuiDslBinding) : List String :=
  ["",
   "  binding " ++ formatIdentifier b.id ++ " \x7b",
   "    source: " ++ formatValue (.str b.source) 2,
   "    select: " ++ formatValue (.str b.select) 2] ++
  optionalObjectBlock "args" b.args 2 ++
  optionalObjectBlock "cache" b.cache 2 ++
  ["  \x7d"]

/-- The full `lines` array of `serializeDuiDslDocument`: header lines, then the
`for (const action of document.actions)` loop, then the node loop, then the
binding loop, then the closing brace. -/
def serializeLines (doc : DuiDslDocument) : List String :=
  headerLines doc ++
  (doc.actions.map actionLines).flatten ++
  (doc.nodes.map nodeLines).flatten ++
  (doc.bindings.map bindingLines).flatten ++
  ["\x7d"]

/-- `serializeDuiDslDocument` from `dslText.ts`: `lines.flatten('\n') + '\n'`. -/
def serializeDuiDslDocument (doc : DuiDslDocument) : String :=
  String.intercalate "\n" (serializeLines doc) ++ "\n"

/-! ## Helper lemmas about JSON quoting -/

/-! ## Spec-modelled structural validator and example documents -/

/-- Modelled from the spec: the node id pattern `^[a-z][a-z0-9_\-.]{2,63}$`
(§3 Node).  The backend Validator is not part of the frontend sources. -/
def nodeIdPatternMatch (s : String) : Bool :=
  match s.data with
  | [] => false
  | c :: cs =>
    ('a' ≤ c && c ≤ 'z') &&
    cs.all (fun d =>
      ('a' ≤ d && d ≤ 'z') || ('0' ≤ d && d ≤ '9') || d = '_' || d = '-' || d = '.') &&
    (decide (2 ≤ cs.length) && decide (cs.length ≤ 63))

/-- Modelled from the spec: the structural rule class of the Validator
(§4.2 class 1 and the §6 numeric limits) — node id pattern and uniqueness,
resolvable `children`/`slots`/`on` references, `max_nodes_per_document=400`,
`max_children_per_node=64`, `max_bindings_per_document=120`.  The backend
Validator itself is not under the frontend sources; the semantic, security
and UX rule classes need the catalog and policy collaborators and are not
modelled. -/
def documentWellFormed (doc : DuiDslDocument) : Bool :=
  let nodeIds := doc.nodes.map (fun n => n.id)
  let actionIds := doc.actions.map (fun a => a.id)
  decide (doc.nodes.length ≤ 400) &&
  decide (doc.bindings.length ≤ 120) &&
  decide nodeIds.Nodup &&
  doc.nodes.all (fun n =>
    nodeIdPatternMatch n.id &&
    decide (n.children.length ≤ 64) &&
    n.children.all (fun c => nodeIds.contains c) &&
    n.slots.all (fun sl => sl.2.all (fun c => nodeIds.contains c)) &&
    n.«on».all (fun e => actionIds.contains e.2))

/-- A small, structurally valid example node. -/
def exNode : DuiDslNode :=
  { id := "abc_node", type := "layout.container", props := [("title", .str "Hello")],
    style := [], layout := [], a11y := [], visible_when := none, enabled_when := none,
    children := [], slots := [], «on» := [] }

/-- A structurally valid one-node document, parameterised by `meta.created_at`. -/
def mkExDoc (created_at : String) : DuiDslDocument :=
  { dsl_version := "1.0",
    surface := ⟨"math_lms.dashboard", "Dashboard", "/"⟩,
    meta := ⟨"doc-1", 1, created_at, "planner"⟩,
    theme := ⟨"default", "comfortable", []⟩,
    state := ⟨[]⟩,
    nodes := [exNode], bindings := [], actions := [],
    layout_constraints := [] }

def exDocA : DuiDslDocument := mkExDoc "2024-01-01T00:00:00Z"

def exDocB : DuiDslDocument := mkExDoc "2025-06-30T12:00:00Z"

/-- The round-trip property claimed for the textual sugar: some parser
recovers every valid document from its pretty-printed text. -/
def roundTripClaim : Prop :=
  ∃ parse : String → DuiDslDocument,
    ∀ d : DuiDslDocument, documentWellFormed d = true →
      parse (serializeDuiDslDocument d) = d

/-! ## Block order of the emitted text (C3) -/

/-- The kind of top-level block a serializer-emitted line opens, recognised by
its two-space-indented keyword prefix. -/
inductive BlockTag where
  | meta
  | theme
  | state
  | node
  | binding
  | action
deriving DecidableEq

/-- Classify one entry of the serializer's `lines` array as the block header
it opens (if any). -/
def lineTag (l : String) : Option BlockTag :=
  if "  meta ".data.isPrefixOf l.data then some .meta
  else if "  theme ".data.isPrefixOf l.data then some .theme
  else if "  state ".data.isPrefixOf l.data then some .state
  else if "  node ".data.isPrefixOf l.data then some .node
  else if "  binding ".data.isPrefixOf l.data then some .binding
  else if "  action ".data.isPrefixOf l.data then some .action
  else none

/-- The block order claimed for the emitted text (the sugar grammar
`meta theme state? node+ binding* action*` of the architecture doc §6): meta,
theme, optional state, then all node blocks, then all binding blocks, then
all action blocks. -/
def claimedBlockOrder (doc : DuiDslDocument) : Prop :=
  (serializeLines doc).filterMap lineTag =
    [BlockTag.meta, BlockTag.theme] ++
    (if doc.state.locals.isEmpty then [] else [BlockTag.state]) ++
    List.replicate doc.nodes.length BlockTag.node ++
    List.replicate doc.bindings.length BlockTag.binding ++
    List.replicate doc.actions.length BlockTag.action

/-- An example binding of the document below. -/
def exBinding : DuiDslBinding :=
  ⟨"b_weak", "math.learning_path", "items", [], []⟩

/-- An example action of the document below. -/
def exAction : DuiDslAction :=
  ⟨"a_open", "nav.open_surface", [("surface_id", .str "math_lms.dashboard")]⟩

/-- A document with one node, one binding and one action. -/
def exDoc3 : DuiDslDocument :=
  { mkExDoc "2024-01-01T00:00:00Z" with
    nodes := [exNode], bindings := [exBinding], actions := [exAction] }

/-! ## The manifest model and the dashboard renderer (`types.ts`, `App.tsx`) -/

/-- `Zone` from `types.ts` (the `ZONES` render order is header, sidebar,
content, footer). -/
inductive Zone where
  | header
  | sidebar
  | content
  | footer
deriving DecidableEq

/-- `ThemeConfig` from `types.ts`. -/
structure ThemeConfig where
  profile : String
  density : String
  tokens : List (String × String)

/-- `WidgetConfig` from `types.ts` (`protected` needs guillemets in Lean). -/
structure WidgetConfig where
  id : String
  title : String
  kind : String
  zone : Zone
  capability_id : String
  «protected» : Bool
  template_id : Option String
  props : List (String × JsValue)

/-- `SectionConfig` from `types.ts`. -/
structure SectionConfig where
  id : String
  title : String
  zone : Zone
  child_widget_ids : List String
  layout : List (String × JsValue)

/-- `UiManifest` from `types.ts`. -/
structure UiManifest where
  schema_version : Nat
  manifest_id : String
  revision : Int
  created_at : String
  theme : ThemeConfig
  widgets : List WidgetConfig
  sections : List SectionConfig
  layout_constraints : List (String × JsValue)
  metadata : List (String × String)

/-- JavaScript property access on an object modelled as an association list. -/
def lookupEntry (l : List (String × JsValue)) (k : String) : Option JsValue :=
  (l.find? (fun e => e.1 == k)).map (fun e => e.2)

/-- The zone column count of `DashboardView` (`App.tsx`):
`typeof raw === 'number' ? Math.max(1, Math.min(4, raw)) : 2`. -/
def dashboardZoneColumns (m : UiManifest) : Int :=
  match lookupEntry m.layout_constraints "max_columns" with
  | some (.num n) => max 1 (min 4 n)
  | _ => 2

/-- `manifest.widgets.filter((widget) => widget.zone === zone)` from
`DashboardView`. -/
def zoneWidgets (m : UiManifest) (z : Zone) : List WidgetConfig :=
  m.widgets.filter (fun w => decide (w.zone = z))

/-- `manifest.sections.filter((section) => section.zone === zone)` from
`DashboardView`. -/
def zoneSections (m : UiManifest) (z : Zone) : List SectionConfig :=
  m.sections.filter (fun s => decide (s.zone = z))

/-- `new Map(widgets.map((widget) => [widget.id, widget])).get(widgetId)`:
on duplicate ids the later entry wins, hence the reversed search. -/
def widgetById (ws : List WidgetConfig) (wid : String) : Option WidgetConfig :=
  ws.reverse.find? (fun w => w.id == wid)

/-- The `children` of one section block of `DashboardView`:
`section.child_widget_ids.map((id) => widgetMap.get(id)).filter(Boolean)`. -/
def sectionChildren (ws : List WidgetConfig) (s : SectionConfig) : List WidgetConfig :=
  s.child_widget_ids.filterMap (fun i => widgetById ws i)

/-- The `usedWidgetIds` set of `DashboardView`: every id of a widget rendered
inside some section block of the zone. -/
def usedWidgetIds (ws : List WidgetConfig) (sections : List SectionConfig) : List String :=
  (sections.map (fun s => (sectionChildren ws s).map (fun w => w.id))).flatten

/-- `widgets.filter((widget) => !usedWidgetIds.has(widget.id))` from
`DashboardView`. -/
def looseWidgets (ws : List WidgetConfig) (sections : List SectionConfig) : List WidgetConfig :=
  ws.filter (fun w => !((usedWidgetIds ws sections).contains w.id))

/-- An otherwise-empty manifest whose `layout_constraints.max_columns` is the
given value. -/
def exManifest (cols : JsValue) : UiManifest :=
  { schema_version := 1, manifest_id := "m1", revision := 1, created_at := "t",
    theme := ⟨"default", "comfortable", []⟩, widgets := [], sections := [],
    layout_constraints := [("max_columns", cols)], metadata := [] }

/-- A content-zone widget referenced by the section below. -/
def wA : WidgetConfig :=
  { id := "w_a", title := "A", kind := "kpi", zone := .content,
    capability_id := "math.progress_overview", «protected» := false,
    template_id := none, props := [] }

/-- A second content-zone widget, not referenced by any section. -/
def wB : WidgetConfig := { wA with id := "w_b" }

/-- A content-zone section rendering `wA`. -/
def sC : SectionConfig :=
  { id := "sec", title := "S", zone := .content, child_widget_ids := ["w_a"], layout := [] }

/-- A manifest with widgets `wA`, `wB` and section `sC`. -/
def mEx8 : UiManifest :=
  { schema_version := 1, manifest_id := "m8", revision := 1, created_at := "t",
    theme := ⟨"default", "comfortable", []⟩, widgets := [wA, wB], sections := [sC],
    layout_constraints := [], metadata := [] }

/-! ## App commit/validation state (`App.tsx`) -/

/-- `DuiIssueSeverity` from `types.ts`. -/
inductive DuiIssueSeverity where
  | error
  | warning
deriving DecidableEq

/-- `DuiDslValidationIssue` from `types.ts`. -/
structure DuiDslValidationIssue where
  severity : DuiIssueSeverity
  code : String
  message : String
  path : String

/-- `DuiDslValidationResult` from `types.ts` (`stats` values are numeric). -/
structure DuiDslValidationResult where
  valid : Bool
  errors : List DuiDslValidationIssue
  warnings : List DuiDslValidationIssue
  stats : List (String × Int)

/-- The `App` component state relevant to the DSL commit flow:
`busy`, `dslDraft`, `dslSource`, `dslSourceDirty`, `dslWarnings` and the
validation verdict trio (`dslValidationValid` starts as `null`). -/
structure AppState where
  busy : Bool
  dslDraft : Option DuiDslDocument
  dslSource : String
  dslSourceDirty : Bool
  dslWarnings : List String
  dslValidationValid : Option Bool
  dslValidationErrors : List DuiDslValidationIssue
  dslValidationWarnings : List DuiDslValidationIssue

/-- The `disabled` expression of the Commit DSL button:
`busy || !dslDraft || dslValidationValid === false || dslSourceDirty`. -/
def commitDslDisabled (s : AppState) : Bool :=
  s.busy || s.dslDraft.isNone || s.dslValidationValid == some false || s.dslSourceDirty

/-- `applyDslValidationState` from `App.tsx`. -/
def applyDslValidationState (s : AppState) (valid : Bool)
    (errors warnings : List DuiDslValidationIssue) : AppState :=
  { s with dslValidationValid := some valid, dslValidationErrors := errors,
           dslValidationWarnings := warnings }

/-- `resetDslValidationState` from `App.tsx`. -/
def resetDslValidationState (s : AppState) : AppState :=
  { s with dslValidationValid := none, dslValidationErrors := [],
           dslValidationWarnings := [] }

/-- The state after `handleValidateDslDocument` succeeds with result `r`
(it applies the validation verdict; `finally` clears `busy`). -/
def validateDslHandlerState (s : AppState) (r : DuiDslValidationResult) : AppState :=
  { applyDslValidationState s r.valid r.errors r.warnings with busy := false }

/-- The state after `handleCommitDslDocument` succeeds with committed
document `doc`: draft and source are replaced, dirty/warnings cleared, and
the validation verdict is reset to `null`. -/
def commitDslSuccessState (s : AppState) (doc : DuiDslDocument) : AppState :=
  { resetDslValidationState
      { s with dslDraft := some doc, dslSource := serializeDuiDslDocument doc,
               dslSourceDirty := false, dslWarnings := [] } with busy := false }

/-- The state after `handleLoadCurrentDsl` succeeds with current document
`doc`: same resets as a successful commit. -/
def loadCurrentDslState (s : AppState) (doc : DuiDslDocument) : AppState :=
  { resetDslValidationState
      { s with dslDraft := some doc, dslSource := serializeDuiDslDocument doc,
               dslSourceDirty := false, dslWarnings := [] } with busy := false }

/-- An error-severity validation issue. -/
def exIssue : DuiDslValidationIssue :=
  ⟨.error, "E_REF", "unresolved reference", "nodes[0].children[0]"⟩

/-- An app state with a present, clean draft and no validation verdict. -/
def exAppState : AppState :=
  { busy := false, dslDraft := some exDocA, dslSource := "", dslSourceDirty := false,
    dslWarnings := [], dslValidationValid := none, dslValidationErrors := [],
    dslValidationWarnings := [] }

/-- A failed validation result. -/
def exResultInvalid : DuiDslValidationResult := ⟨false, [exIssue], [], []⟩

/-- A passing validation result carrying only a warning. -/
def exResultWarnOnly : DuiDslValidationResult :=
  ⟨true, [], [⟨.warning, "W_DENSITY", "advisory only", "theme.density"⟩], []⟩

/-! ## Spec-modelled patch/revision engine

The Patch/Revision Engine is backend code, not among the frontend sources;
the following definitions are modelled from the spec (§4.4, §3 Revision) and
the Patch DSL operation list of the architecture doc. -/

/-- Modelled from the spec: the `PatchOp` variants of §4.4. -/
inductive PatchOp where
  | create_node (node : DuiDslNode)
  | update_node_props (node_id : String) (props : List (String × JsValue))
  | update_node_layout (node_id : String) (layout : List (String × JsValue))
  | update_node_style (node_id : String) (style : List (String × JsValue))
  | move_node (node_id : String) (index : Nat)
  | delete_node (node_id : String)
  | attach_binding (binding : DuiDslBinding)
  | detach_binding (binding_id : String)
  | attach_action (action : DuiDslAction)
  | detach_action (action_id : String)
  | set_theme_profile (profile : String)
  | set_theme_tokens (tokens : List (String × String))
  | set_layout_constraints (lc : List (String × JsValue))

/-- Modelled from the spec: `PatchError{op_index, reason}`. -/
structure PatchError where
  op_index : Nat
  reason : String

/-- Modelled from the spec: the policy-profile parameters the Patch Engine
consults (protected node ids and the overridable numeric limits). -/
structure PolicyProfile where
  protected_node_ids : List String
  max_nodes : Nat
  max_bindings : Nat

/-- Modelled from the spec: application of a single patch operation; fails on
unresolved references, deleting a `protected` node, or exceeding a limit. -/
def applyPatchOp (pp : PolicyProfile) (doc : DuiDslDocument) (op : PatchOp) :
    Except String DuiDslDocument :=
  match op with
  | .create_node n =>
    if doc.nodes.any (fun m => m.id == n.id) then .error "duplicate node id"
    else if pp.max_nodes ≤ doc.nodes.length then .error "max_nodes exceeded"
    else .ok { doc with nodes := doc.nodes ++ [n] }
  | .update_node_props nid props =>
    if doc.nodes.any (fun m => m.id == nid) then
      .ok { doc with nodes := doc.nodes.map (fun m =>
        if m.id == nid then { m with props := props } else m) }
    else .error "unresolved node reference"
  | .update_node_layout nid layout =>
    if doc.nodes.any (fun m => m.id == nid) then
      .ok { doc with nodes := doc.nodes.map (fun m =>
        if m.id == nid then { m with layout := layout } else m) }
    else .error "unresolved node reference"
  | .update_node_style nid style =>
    if doc.nodes.any (fun m => m.id == nid) then
      .ok { doc with nodes := doc.nodes.map (fun m =>
        if m.id == nid then { m with style := style } else m) }
    else .error "unresolved node reference"
  | .move_node nid idx =>
    match doc.nodes.find? (fun m => m.id == nid) with
    | none => .error "unresolved node reference"
    | some n =>
      let rest := doc.nodes.filter (fun m => !(m.id == nid))
      .ok { doc with nodes := rest.take idx ++ [n] ++ rest.drop idx }
  | .delete_node nid =>
    if !(doc.nodes.any (fun m => m.id == nid)) then .error "unresolved node reference"
    else if pp.protected_node_ids.contains nid then .error "ProtectedNode"
    else .ok { doc with nodes := doc.nodes.filter (fun m => !(m.id == nid)) }
  | .attach_binding b =>
    if doc.bindings.any (fun c => c.id == b.id) then .error "duplicate binding id"
    else if pp.max_bindings ≤ doc.bindings.length then .error "max_bindings exceeded"
    else .ok { doc with bindings := doc.bindings ++ [b] }
  | .detach_binding bid =>
    if doc.bindings.any (fun c => c.id == bid) then
      .ok { doc with bindings := doc.bindings.filter (fun c => !(c.id == bid)) }
    else .error "unresolved binding reference"
  | .attach_action a =>
    if doc.actions.any (fun c => c.id == a.id) then .error "duplicate action id"
    else .ok { doc with actions := doc.actions ++ [a] }
  | .detach_action aid =>
    if doc.actions.any (fun c => c.id == aid) then
      .ok { doc with actions := doc.actions.filter (fun c => !(c.id == aid)) }
    else .error "unresolved action reference"
  | .set_theme_profile p => .ok { doc with theme := { doc.theme with profile := p } }
  | .set_theme_tokens tk => .ok { doc with theme := { doc.theme with tokens := tk } }
  | .set_layout_constraints lc => .ok { doc with layout_constraints := lc }

/-- Modelled from the spec: sequential application of a batch, reporting the
index of the first failing op. -/
def applyPatchOpsFrom (pp : PolicyProfile) (doc : DuiDslDocument) :
    List PatchOp → Nat → Except PatchError DuiDslDocument
  | [], _ => .ok doc
  | op :: rest, i =>
    match applyPatchOp pp doc op with
    | .error r => .error ⟨i, r⟩
    | .ok doc' => applyPatchOpsFrom pp doc' rest (i + 1)

/-- Modelled from the spec: `apply(current_document, ops)` — every op applies
in order and the aggregate result must re-validate, else the batch fails as a
unit. -/
def applyPatchBatch (pp : PolicyProfile) (doc : DuiDslDocument) (ops : List PatchOp) :
    Except PatchError DuiDslDocument :=
  match applyPatchOpsFrom pp doc ops 0 with
  | .error e => .error e
  | .ok doc' =>
    if documentWellFormed doc' then .ok doc'
    else .error ⟨ops.length, "post-condition validation failed"⟩

/-- Modelled from the spec: the stored current document after an `apply`
call — replaced on success, untouched on failure. -/
def patchStoreResult (pp : PolicyProfile) (stored : DuiDslDocument) (ops : List PatchOp) :
    DuiDslDocument :=
  match applyPatchBatch pp stored ops with
  | .ok d => d
  | .error _ => stored

/-! ## Spec-modelled revision store (C7) -/

/-- Modelled from the spec: an immutable stored revision
`{document, status, created_at}` keyed by its revision number. -/
structure StoredRevision where
  number : Nat
  document : DuiDslDocument
  status : String
  created_at : String

/-- Modelled from the spec: the current revision number of an append-only
revision sequence (the number of the last stored revision). -/
def currentRevisionNumber (store : List StoredRevision) : Nat :=
  match store.getLast? with
  | some r => r.number
  | none => 0

/-- Modelled from the spec: look a revision up by number. -/
def findRevision (store : List StoredRevision) (n : Nat) : Option StoredRevision :=
  store.find? (fun r => r.number == n)

/-- Modelled from the spec: `revert(target_revision)` — appends a *new*
revision `N+1` whose document content equals the target's; it never deletes
or rewrites intervening history. -/
def revertRevision (store : List StoredRevision) (target : Nat) (created_at : String) :
    Option (List StoredRevision) :=
  match findRevision store target with
  | none => none
  | some tr =>
    some (store ++ [⟨currentRevisionNumber store + 1, tr.document, "committed", created_at⟩])

/-- A three-revision store (numbers 1, 2, 3; revision 2 holds `exDocB`). -/
def revStoreEx : List StoredRevision :=
  [⟨1, exDocA, "committed", "t1"⟩, ⟨2, exDocB, "committed", "t2"⟩,
   ⟨3, exDocA, "committed", "t3"⟩]

/-! ## Theorems -/

theorem jsonEscapeChar_length_pos (c : Char) : 1 ≤ (jsonEscapeChar c).length := by
  unfold jsonEscapeChar
  repeat' split
  all_goals simp

theorem jsonEscapeList_length (l : List Char) : l.length ≤ (jsonEscapeList l).length := by
  induction l with
  | nil => simp [jsonEscapeList]
  | cons c cs ih =>
    have := jsonEscapeChar_length_pos c
    simp only [jsonEscapeList, List.length_cons, List.length_append]
    omega

theorem jsonQuote_length (s : String) : s.length < (jsonQuote s).length := by
  have h := jsonEscapeList_length s.data
  show s.data.length < ('"' :: (jsonEscapeList s.data ++ ['"'])).length
  simp only [List.length_cons, List.length_append, List.length_singleton]
  omega

/-- `JSON.stringify` output is strictly longer than its input, so a quoted
string literal never coincides with the raw string. -/
theorem jsonQuote_ne_self (s : String) : jsonQuote s ≠ s := by
  intro h
  have := jsonQuote_length s
  rw [h] at this
  omega

/-- **C10**: `formatValue` emits a string without quotes iff it matches
`^[A-Za-z_][A-Za-z0-9_.-]*$` and is none of `true`/`false`/`null`
(`isIdentifier`); every other string — in particular every reserved word —
is emitted as the JSON string literal `JSON.stringify` produces. -/
theorem formatValue_string_quoting (s : String) (lvl : Nat) :
    (formatValue (.str s) lvl = s ↔ isIdentifier s = true)
    ∧ (isIdentifier s = false → formatValue (.str s) lvl = jsonQuote s)
    ∧ (RESERVED_WORDS.contains s = true → formatValue (.str s) lvl = jsonQuote s) := by
  have hd : formatValue (.str s) lvl = if isIdentifier s then s else jsonQuote s := rfl
  have hfalse : isIdentifier s = false → formatValue (.str s) lvl = jsonQuote s := by
    intro h
    rw [hd, h]
    simp
  refine ⟨⟨fun h => ?_, fun h => by rw [hd, h]; simp⟩, hfalse, fun h => ?_⟩
  · cases hi : isIdentifier s with
    | true => rfl
    | false =>
      rw [hfalse hi] at h
      exact absurd h (jsonQuote_ne_self s)
  · have hni : isIdentifier s = false := by
      simp only [isIdentifier, h]
      simp
    exact hfalse hni

/-- Witness for C10 at concrete inputs: `"hello world"` fails the identifier
pattern and is emitted quoted; the reserved word `"true"` is emitted quoted. -/
theorem formatValue_string_quoting_witness :
    isIdentifier "hello world" = false
    ∧ formatValue (.str "hello world") 0 = jsonQuote "hello world"
    ∧ RESERVED_WORDS.contains "true" = true
    ∧ formatValue (.str "true") 2 = jsonQuote "true" :=
  ⟨by decide, (formatValue_string_quoting "hello world" 0).2.1 (by decide), by decide,
    (formatValue_string_quoting "true" 2).2.2 (by decide)⟩

/-- **C2**: the pretty-printer is deterministic.  `serializeDuiDslDocument` is
embedded as a pure function of the document alone — the source consults no
clock, randomness or ambient state — so two calls on the same document (same
catalog/grammar version) return byte-identical text. -/
theorem serializeDuiDslDocument_deterministic (d : DuiDslDocument) :
    serializeDuiDslDocument d = serializeDuiDslDocument d := rfl

/-- **C1 (counterexample)**: no parser satisfies `parse(print(d)) == d` for
every valid document: `serializeDuiDslDocument` never emits `dsl_version` or
`meta.created_at`, so the valid documents `exDocA`/`exDocB` — differing only
in `meta.created_at` — print to byte-identical text. -/
theorem serialize_roundtrip_impossible : ¬ roundTripClaim := by
  rintro ⟨parse, h⟩
  have hA := h exDocA (by decide)
  have hB := h exDocB (by decide)
  have hs : serializeDuiDslDocument exDocA = serializeDuiDslDocument exDocB := rfl
  have hAB : exDocA = exDocB := by rw [← hA, hs, hB]
  have hca : exDocA.meta.created_at = exDocB.meta.created_at := by rw [hAB]
  exact absurd hca (by decide)

/-- **C1 (amended)**: the pretty-printed text is invariant under changes to
`dsl_version` and `meta.created_at` (the serializer reads neither field), so
the print/parse round trip can hold at most up to those two fields and fails
as originally stated. -/
theorem serialize_ignores_version_and_created_at (d : DuiDslDocument) (v t : String) :
    serializeDuiDslDocument
        { d with dsl_version := v, meta := { d.meta with created_at := t } } =
      serializeDuiDslDocument d := by
  cases d with
  | mk dv sf mt th st ns bs acs lc => cases mt; rfl

/-- **C3**: the pretty-printer does *not* emit the grammar's block order for
`exDoc3` (one node, one binding, one action): it emits all action blocks
first, then the node blocks, then the binding blocks, instead of the
`node+ binding* action*` order of the sugar grammar. -/
theorem serialize_block_order_violation :
    ¬ claimedBlockOrder exDoc3
    ∧ (serializeLines exDoc3).filterMap lineTag =
        [BlockTag.meta, BlockTag.theme, BlockTag.action, BlockTag.node, BlockTag.binding] := by
  constructor
  · unfold claimedBlockOrder
    decide
  · decide

/-- **C6 (counterexample)**: with `layout_constraints.max_columns = 5`
(likewise `6`) — inside the range `[1,6]` the spec admits — `DashboardView`
uses 4 zone columns, not 5 (resp. 6): the renderer clamps at 4. -/
theorem dashboard_max_columns_clamped :
    lookupEntry (exManifest (.num 5)).layout_constraints "max_columns" = some (.num 5)
    ∧ dashboardZoneColumns (exManifest (.num 5)) = 4
    ∧ (4 : Int) ≠ 5
    ∧ dashboardZoneColumns (exManifest (.num 6)) = 4 :=
  ⟨rfl, by decide, by decide, by decide⟩

/-- **C6 (amended)**: for a numeric `layout_constraints.max_columns = n` the
renderer uses `max 1 (min 4 n)` columns: exactly `n` when `1 ≤ n ≤ 4`, and
clamped to the 1..4 range otherwise (so 5 and 6 render as 4). -/
theorem dashboard_max_columns (m : UiManifest) (n : Int)
    (h : lookupEntry m.layout_constraints "max_columns" = some (.num n)) :
    (1 ≤ n → n ≤ 4 → dashboardZoneColumns m = n)
    ∧ (4 ≤ n → dashboardZoneColumns m = 4)
    ∧ (n ≤ 1 → dashboardZoneColumns m = 1) := by
  have hm : dashboardZoneColumns m = max 1 (min 4 n) := by
    unfold dashboardZoneColumns
    rw [h]
  rw [hm, max_def, min_def]
  refine ⟨fun h1 h4 => ?_, fun h4 => ?_, fun h1 => ?_⟩ <;> split_ifs <;> omega

/-- Witness for C6 (amended): `max_columns = 3` renders exactly 3 columns. -/
theorem dashboard_max_columns_witness :
    lookupEntry (exManifest (.num 3)).layout_constraints "max_columns" = some (.num 3)
    ∧ dashboardZoneColumns (exManifest (.num 3)) = 3 :=
  ⟨rfl, (dashboard_max_columns (exManifest (.num 3)) 3 rfl).1 (by decide) (by decide)⟩

/-- **C8**: in `DashboardView`, a section block renders exactly the widgets
its `child_widget_ids` resolve to in the zone-filtered widget map (missing or
cross-zone ids are dropped); every such widget belongs to the manifest and to
the section's zone; and a widget rendered inside some section of the zone is
excluded from the zone's loose-widget list, so it is not rendered twice. -/
theorem dashboard_section_widgets (m : UiManifest) (z : Zone) (s : SectionConfig)
    (hs : s ∈ zoneSections m z) :
    (∀ w, w ∈ sectionChildren (zoneWidgets m z) s ↔
      ∃ i ∈ s.child_widget_ids, widgetById (zoneWidgets m z) i = some w)
    ∧ (∀ w ∈ sectionChildren (zoneWidgets m z) s, w ∈ m.widgets ∧ w.zone = z)
    ∧ (∀ w ∈ sectionChildren (zoneWidgets m z) s,
        w ∉ looseWidgets (zoneWidgets m z) (zoneSections m z)) := by
  refine ⟨fun w => ?_, fun w hw => ?_, fun w hw hloose => ?_⟩
  · simp [sectionChildren, List.mem_filterMap]
  · obtain ⟨i, hi, hfind⟩ := List.mem_filterMap.mp hw
    have hmem : w ∈ (zoneWidgets m z).reverse := List.mem_of_find?_eq_some hfind
    rw [List.mem_reverse] at hmem
    have hf := List.mem_filter.mp hmem
    exact ⟨hf.1, of_decide_eq_true hf.2⟩
  · have hl := List.mem_filter.mp hloose
    have hused : w.id ∈ usedWidgetIds (zoneWidgets m z) (zoneSections m z) := by
      unfold usedWidgetIds
      rw [List.mem_flatten]
      exact ⟨(sectionChildren (zoneWidgets m z) s).map (fun w => w.id),
        List.mem_map_of_mem _ hs, List.mem_map_of_mem _ hw⟩
    have := hl.2
    simp [List.contains, List.elem_iff] at this
    exact this hused

/-- Witness for C8: in `mEx8`'s content zone, `wA` renders inside section `sC`
and is therefore not in the zone's loose-widget list. -/
theorem dashboard_section_widgets_witness :
    wA ∈ sectionChildren (zoneWidgets mEx8 .content) sC
    ∧ wA ∉ looseWidgets (zoneWidgets mEx8 .content) (zoneSections mEx8 .content) := by
  have hs : sC ∈ zoneSections mEx8 .content := List.mem_cons_self _ _
  have hw : wA ∈ sectionChildren (zoneWidgets mEx8 .content) sC := List.mem_cons_self _ _
  exact ⟨hw, (dashboard_section_widgets mEx8 .content sC hs).2.2 wA hw⟩

/-- **C4**: after a validation round, an invalid verdict (`valid == false`,
i.e. error-severity issues exist) disables the Commit DSL button, while a
valid verdict (warnings only) leaves the button's state to the unrelated
conditions (`!dslDraft`, `dslSourceDirty`) — warnings never block commit. -/
theorem commit_blocked_iff_validation_failed (s : AppState) (r : DuiDslValidationResult) :
    (r.valid = false → commitDslDisabled (validateDslHandlerState s r) = true)
    ∧ (r.valid = true →
        commitDslDisabled (validateDslHandlerState s r) =
          (s.dslDraft.isNone || s.dslSourceDirty)) := by
  constructor <;> intro h <;>
    simp [commitDslDisabled, validateDslHandlerState, applyDslValidationState, h]

/-- Witness for C4: an invalid result disables commit on a concrete state; a
warnings-only valid result leaves it enabled. -/
theorem commit_blocked_iff_validation_failed_witness :
    exResultInvalid.valid = false
    ∧ commitDslDisabled (validateDslHandlerState exAppState exResultInvalid) = true
    ∧ exResultWarnOnly.valid = true
    ∧ commitDslDisabled (validateDslHandlerState exAppState exResultWarnOnly) = false := by
  refine ⟨rfl, (commit_blocked_iff_validation_failed exAppState exResultInvalid).1 rfl, rfl, ?_⟩
  rw [(commit_blocked_iff_validation_failed exAppState exResultWarnOnly).2 rfl]
  rfl

/-- **C9**: the Commit DSL button is disabled only for an explicitly false
verdict (or busy/missing draft/locally-edited source): after loading the
current document or after a successful commit — both of which reset the
verdict to `null` — commit is enabled with no prior validate call, and in
general a clean, idle state with a draft and no recorded verdict can commit. -/
theorem commit_allowed_when_unvalidated (s : AppState) (d doc : DuiDslDocument) :
    ((loadCurrentDslState s doc).dslValidationValid = none
      ∧ commitDslDisabled (loadCurrentDslState s doc) = false)
    ∧ ((commitDslSuccessState s doc).dslValidationValid = none
      ∧ commitDslDisabled (commitDslSuccessState s doc) = false)
    ∧ (s.dslValidationValid = none → s.busy = false → s.dslSourceDirty = false →
        s.dslDraft = some d → commitDslDisabled s = false) := by
  refine ⟨⟨rfl, ?_⟩, ⟨rfl, ?_⟩, fun hv hb hd hdraft => ?_⟩ <;>
    simp [commitDslDisabled, loadCurrentDslState, commitDslSuccessState,
      resetDslValidationState, *]

/-- Witness for C9: the concrete never-validated state `exAppState` (verdict
`null`, clean draft, idle) has commit enabled. -/
theorem commit_allowed_when_unvalidated_witness :
    exAppState.dslValidationValid = none ∧ commitDslDisabled exAppState = false :=
  ⟨rfl, (commit_allowed_when_unvalidated exAppState exDocA exDocA).2.2 rfl rfl rfl rfl⟩

/-- A batch accepted by `applyPatchBatch` has passed the validation gate. -/
theorem applyPatchBatch_ok_wellFormed (pp : PolicyProfile) (doc : DuiDslDocument)
    (ops : List PatchOp) (d : DuiDslDocument)
    (h : applyPatchBatch pp doc ops = .ok d) : documentWellFormed d = true := by
  unfold applyPatchBatch at h
  split at h
  · cases h
  · split at h
    · cases h
      assumption
    · cases h

/-- **C5**: patch application is atomic — for every batch, either every op
applies and the result passes validation and becomes the stored document, or
the batch fails with a `PatchError` and the stored document is exactly what
it was before the call (no partial mutation). -/
theorem patch_batch_atomic (pp : PolicyProfile) (stored : DuiDslDocument)
    (ops : List PatchOp) :
    (∃ d, applyPatchBatch pp stored ops = .ok d ∧ documentWellFormed d = true
      ∧ patchStoreResult pp stored ops = d)
    ∨ (∃ e, applyPatchBatch pp stored ops = .error e
      ∧ patchStoreResult pp stored ops = stored) := by
  rcases hb : applyPatchBatch pp stored ops with e | d
  · refine Or.inr ⟨e, rfl, ?_⟩
    unfold patchStoreResult
    rw [hb]
  · refine Or.inl ⟨d, rfl, applyPatchBatch_ok_wellFormed pp stored ops d hb, ?_⟩
    unfold patchStoreResult
    rw [hb]

/-- **C7**: revert never mutates history — a successful
`revert(target)` on a store with current revision `N` appends exactly one new
revision, numbered `N+1`, whose document equals the target revision's
document, and every previously stored revision remains stored and is still
found by the same revision-number query. -/
theorem revert_appends_and_preserves_history (store : List StoredRevision)
    (target : Nat) (t : String) (newStore : List StoredRevision)
    (h : revertRevision store target t = some newStore) :
    ∃ tr, findRevision store target = some tr
      ∧ newStore = store ++ [⟨currentRevisionNumber store + 1, tr.document, "committed", t⟩]
      ∧ (∀ r ∈ store, r ∈ newStore)
      ∧ (∀ n r, findRevision store n = some r → findRevision newStore n = some r) := by
  unfold revertRevision at h
  rcases hf : findRevision store target with _ | tr
  · rw [hf] at h
    cases h
  · rw [hf] at h
    cases h
    refine ⟨tr, rfl, rfl, fun r hr => List.mem_append_left _ hr, fun n r hr => ?_⟩
    unfold findRevision at hr ⊢
    rw [List.find?_append, hr]
    rfl

/-- Witness for C7: reverting `revStoreEx` to revision 2 appends revision 4
with revision 2's document, and revision 2 is still queryable unchanged. -/
theorem revert_appends_and_preserves_history_witness :
    findRevision (revStoreEx ++ [⟨4, exDocB, "committed", "t4"⟩]) 2 =
      some ⟨2, exDocB, "committed", "t2"⟩ := by
  obtain ⟨tr, _, _, _, hq⟩ :=
    revert_appends_and_preserves_history revStoreEx 2 "t4"
      (revStoreEx ++ [⟨4, exDocB, "committed", "t4"⟩]) (by rfl)
  exact hq 2 ⟨2, exDocB, "committed", "t2"⟩ rfl
